import Mathlib

/-!
Verification of the oe-python-template web service and CLI.

Shallow embedding of the two source modules:
the web service module (namespace Api, from api.py) and the command line
module (namespace Cli, from cli.py). HTTP status codes are Nat; a request
body field that may be absent is an Option String; validation failures are
the error branch of an Except carrying the status code.
-/

/-- Modelled from the spec: the Service Core class Service is defined outside
the two embedded modules; it exposes a pure greeting producer returning a
fixed constant string (the hello world message). -/
def Service.get_hello_world : String := "Hello, world!"

/-- Output of a CLI command on the console: either plain text or a JSON
object printed as structured data (modelled as its list of key/value
fields, all string valued here). -/
inductive ConsoleOutput
  | plain (text : String)
  | jsonObj (fields : List (String × String))
deriving DecidableEq, Repr

/-- A process environment: an association list of variable names to values,
as read by os.environ.get and written by os.environ assignment. -/
abbrev Env := List (String × String)

/-- Look up a variable in the environment, falling back to a default
(os.environ.get(key, dflt)). -/
def envGet (env : Env) (key dflt : String) : String :=
  match env.find? (fun p => p.1 == key) with
  | some p => p.2
  | none => dflt

/-- Assign a variable in the environment (os.environ[key] = value). -/
def envSet (env : Env) (key value : String) : Env :=
  (key, value) :: env.filter (fun p => p.1 != key)

namespace Api

def TITLE : String := "OE Python Template"

/-- Health status enumeration (source name with a leading underscore:
class _HealthStatus). -/
inductive HealthStatus
  | UP
  | DOWN
deriving DecidableEq, Repr

/-- Health status model: status plus an optional reason. -/
structure Health where
  status : HealthStatus
  reason : Option String
deriving DecidableEq, Repr

/-- The health endpoint handler, parameterized by the outcome of the
Service Core health predicate service.healthy(). Returns the Health body
together with the response status code: the framework default 200, replaced
by 500 when the computed status is DOWN. -/
def health (healthy : Bool) : Health × Nat :=
  let health_result :=
    if healthy then { status := HealthStatus.UP, reason := none }
    else { status := HealthStatus.DOWN, reason := some "Service is unhealthy" }
  let code := if health_result.status = HealthStatus.DOWN then 500 else 200
  (health_result, code)

/-- Response model for the hello-world endpoint. -/
structure HelloWorldResponse where
  message : String
deriving DecidableEq, Repr

/-- The hello-world endpoint handler: returns the Service Core greeting.
It takes no input and is registered on both version modules. -/
def hello_world : HelloWorldResponse :=
  { message := Service.get_hello_world }

/-- Response model for the echo endpoint, one field message with
min_length 1. -/
structure EchoResponse where
  message : String
deriving DecidableEq, Repr

/-- Request model for the v1 echo endpoint, one field text with
min_length 1. -/
structure EchoRequest where
  text : String
deriving DecidableEq, Repr

/-- Request model for the v2 echo endpoint, one field utterance with
min_length 1. -/
structure Utterance where
  utterance : String
deriving DecidableEq, Repr

/-- The v1 echo handler body: echoes the text field back verbatim. -/
def echo (request : EchoRequest) : EchoResponse :=
  { message := request.text }

/-- The v2 echo handler body: echoes the utterance field back verbatim. -/
def echo_v2 (request : Utterance) : EchoResponse :=
  { message := request.utterance }

/-- The full v1 POST /echo endpoint, parameterized by the handler so that
boundary validation is visibly independent of the handler body. The text
argument is the request body field (none when absent). Validation at the
boundary: a missing field, or one violating min_length 1, is rejected with
422 before the handler runs. The response model is validated too (message
has min_length 1); a violation would be a 500 response validation error. -/
def echoEndpointV1With (handler : EchoRequest → EchoResponse)
    (text : Option String) : Except Nat (EchoResponse × Nat) :=
  match text with
  | none => Except.error 422
  | some s =>
    if 1 ≤ s.length then
      let resp := handler { text := s }
      if 1 ≤ resp.message.length then Except.ok (resp, 200)
      else Except.error 500
    else Except.error 422

/-- The full v2 POST /echo endpoint, same boundary validation on the
utterance field. -/
def echoEndpointV2With (handler : Utterance → EchoResponse)
    (utterance : Option String) : Except Nat (EchoResponse × Nat) :=
  match utterance with
  | none => Except.error 422
  | some s =>
    if 1 ≤ s.length then
      let resp := handler { utterance := s }
      if 1 ≤ resp.message.length then Except.ok (resp, 200)
      else Except.error 500
    else Except.error 422

/-- The v1 POST /echo endpoint with its registered handler. -/
def echoEndpointV1 : Option String → Except Nat (EchoResponse × Nat) :=
  echoEndpointV1With echo

/-- The v2 POST /echo endpoint with its registered handler. -/
def echoEndpointV2 : Option String → Except Nat (EchoResponse × Nat) :=
  echoEndpointV2With echo_v2

/-- Identifiers of the GET handler functions of the api module; both
version modules register these same two functions. -/
inductive GetHandler
  | health
  | hello_world
deriving DecidableEq, Repr

/-- GET route table of the v1 version module: the four route decorators
register /healthz and /health to the single health handler, and
/hello-world to the hello-world handler. -/
def apiV1GetRoute : String → Option GetHandler
  | "/healthz" => some GetHandler.health
  | "/health" => some GetHandler.health
  | "/hello-world" => some GetHandler.hello_world
  | _ => none

/-- GET route table of the v2 version module: the same registrations as v1,
pointing at the same handler functions. -/
def apiV2GetRoute : String → Option GetHandler
  | "/healthz" => some GetHandler.health
  | "/health" => some GetHandler.health
  | "/hello-world" => some GetHandler.hello_world
  | _ => none

/-- A dispatched GET response: the typed body together with the status
code. -/
inductive ApiResponse
  | healthBody (h : Health) (code : Nat)
  | greetingBody (g : HelloWorldResponse) (code : Nat)
deriving DecidableEq, Repr

/-- Dispatch a GET request through a route table to the registered handler,
given the outcome of the health predicate. -/
def dispatchGet (route : String → Option GetHandler) (healthy : Bool)
    (path : String) : Option ApiResponse :=
  match route path with
  | some GetHandler.health =>
    let r := health healthy
    some (ApiResponse.healthBody r.1 r.2)
  | some GetHandler.hello_world =>
    some (ApiResponse.greetingBody hello_world 200)
  | none => none

/-- GET dispatch of the v1 version module. -/
def dispatchV1 : Bool → String → Option ApiResponse :=
  dispatchGet apiV1GetRoute

/-- GET dispatch of the v2 version module. -/
def dispatchV2 : Bool → String → Option ApiResponse :=
  dispatchGet apiV2GetRoute

/-- The root gateway metadata computed when the api module is first
imported: UVICORN_HOST and UVICORN_PORT are read from the environment with
defaults 127.0.0.1 and 8000, and the two external-docs URLs of the catalog
tags are built from them. -/
structure ApiModule where
  uvicornHost : String
  uvicornPort : String
  v1DocsUrl : String
  v2DocsUrl : String
deriving DecidableEq, Repr

/-- Module level initialization of the api module under a given
environment. -/
def moduleInit (env : Env) : ApiModule :=
  let host := envGet env "UVICORN_HOST" "127.0.0.1"
  let port := envGet env "UVICORN_PORT" "8000"
  { uvicornHost := host
    uvicornPort := port
    v1DocsUrl := "http://" ++ host ++ ":" ++ port ++ "/api/v1/docs"
    v2DocsUrl := "http://" ++ host ++ ":" ++ port ++ "/api/v2/docs" }

/-- The machine readable interface description of a version module:
metadata declared on the module plus its registered route paths. -/
structure OpenAPISchema where
  title : String
  version : String
  paths : List String
deriving DecidableEq, Repr

/-- Interface description artifact of the v1 version module. -/
def api_v1_openapi : OpenAPISchema :=
  { title := TITLE
    version := "1.0.0"
    paths := ["/healthz", "/health", "/hello-world", "/echo"] }

/-- Interface description artifact of the v2 version module. -/
def api_v2_openapi : OpenAPISchema :=
  { title := TITLE
    version := "2.0.0"
    paths := ["/healthz", "/health", "/hello-world", "/echo"] }

end Api

namespace Cli

/-- Default text of the CLI echo command when the argument is omitted. -/
def echoDefaultText : String :=
  "Lorem ipsum dolor sit amet, consectetur adipiscing elit."

/-- The CLI echo command: with the json option it prints the structured
object with the single key text, otherwise it prints the text itself. -/
def echo (text : String) (json : Bool) : ConsoleOutput :=
  if json then ConsoleOutput.jsonObj [("text", text)]
  else ConsoleOutput.plain text

/-- The CLI echo command invoked with the text argument omitted: typer
substitutes the declared default. -/
def echoTextOmitted (json : Bool) : ConsoleOutput :=
  echo echoDefaultText json

/-- The CLI hello-world command: prints the Service Core greeting. -/
def hello_world : ConsoleOutput :=
  ConsoleOutput.plain Service.get_hello_world

/-- Outcome of the serve command: the address the server binds, and the
api module instance whose catalog metadata the served gateway advertises. -/
structure ServeOutcome where
  bindHost : String
  bindPort : Nat
  advertised : Api.ApiModule
deriving DecidableEq, Repr

/-- The serve command. The cli module imports the api module at load time,
so the api module is initialized (and cached by the module system) under
the initial environment before serve runs. serve then writes UVICORN_HOST
and UVICORN_PORT into the environment and starts the server on the given
host and port. With watch enabled the reloading server runs the app from
its module path in a fresh worker process, which re-imports the api module
under the updated environment; without watch the app is resolved in
process, where the module cache returns the instance initialized under the
initial environment. -/
def serve (initialEnv : Env) (host : String) (port : Nat) (watch : Bool) :
    ServeOutcome :=
  let cachedApi := Api.moduleInit initialEnv
  let env1 := envSet (envSet initialEnv "UVICORN_HOST" host)
    "UVICORN_PORT" (toString port)
  let advertised := if watch then Api.moduleInit env1 else cachedApi
  { bindHost := host, bindPort := port, advertised := advertised }

/-- Enum of the supported API versions of the openapi command. -/
inductive APIVersion
  | V1
  | V2
deriving DecidableEq, Repr

/-- Enum of the supported output formats of the openapi command. -/
inductive OutputFormat
  | YAML
  | JSON
deriving DecidableEq, Repr

/-- The schema selected by the openapi command: the match on the closed
enumeration, each member selecting its own version module artifact. -/
def openapiSchema (api_version : APIVersion) : Api.OpenAPISchema :=
  match api_version with
  | APIVersion.V1 => Api.api_v1_openapi
  | APIVersion.V2 => Api.api_v2_openapi

/-- Output of the openapi command: the selected schema, either dumped as
YAML text or printed as JSON data. -/
inductive OpenapiOutput
  | yamlText (s : Api.OpenAPISchema)
  | jsonData (s : Api.OpenAPISchema)
deriving DecidableEq, Repr

/-- Whether an openapi command output is the JSON encoding. -/
def OpenapiOutput.isJsonData : OpenapiOutput → Bool
  | OpenapiOutput.yamlText _ => false
  | OpenapiOutput.jsonData _ => true

/-- The openapi command: select the schema by version, then encode it in
the requested output format. -/
def openapi (api_version : APIVersion) (output_format : OutputFormat) :
    OpenapiOutput :=
  let schema := openapiSchema api_version
  match output_format with
  | OutputFormat.JSON => OpenapiOutput.jsonData schema
  | OutputFormat.YAML => OpenapiOutput.yamlText schema

/-- The openapi command invoked with both options omitted: typer
substitutes the declared defaults, version V1 and format YAML. -/
def openapiDefaults : OpenapiOutput :=
  openapi APIVersion.V1 OutputFormat.YAML

end Cli

/-- A string other than the empty string has length at least one. -/
theorem one_le_length_of_ne_empty (s : String) (h : s ≠ "") :
    1 ≤ s.length := by
  cases s with
  | mk data =>
    cases data with
    | nil => exact absurd rfl h
    | cons c rest =>
      show 1 ≤ (String.mk (c :: rest)).length
      simp [String.length]

/-- Claim C1: for every non-empty string s, the v1 echo endpoint on a
request with text s returns the response with message s and status 200,
and the v2 echo endpoint on a request with utterance s returns the same
single-field response with message s and status 200; the echoed message is
the input string itself, untransformed. -/
theorem echo_identity (s : String) (h : s ≠ "") :
    Api.echoEndpointV1 (some s) = Except.ok ({ message := s }, 200) ∧
    Api.echoEndpointV2 (some s) = Except.ok ({ message := s }, 200) := by
  have hlen : 1 ≤ s.length := one_le_length_of_ne_empty s h
  constructor <;>
    simp [Api.echoEndpointV1, Api.echoEndpointV2, Api.echoEndpointV1With,
      Api.echoEndpointV2With, Api.echo, Api.echo_v2, hlen]

/-- Witness for claim C1 at the concrete non-empty input string. -/
theorem echo_identity_witness :
    Api.echoEndpointV1 (some "Hello, world!") =
      Except.ok ({ message := "Hello, world!" }, 200) ∧
    Api.echoEndpointV2 (some "Hello, world!") =
      Except.ok ({ message := "Hello, world!" }, 200) :=
  echo_identity "Hello, world!" (by decide)

/-- Claim C2: whatever the handler bodies are, a v1 echo request whose text
field is absent or empty, and a v2 echo request whose utterance field is
absent or empty, are rejected with 422 at the validation boundary; the
result does not depend on the handler, which is never invoked. -/
theorem echo_validation_422 (h1 : Api.EchoRequest → Api.EchoResponse)
    (h2 : Api.Utterance → Api.EchoResponse) (t : Option String)
    (hin : t = none ∨ t = some "") :
    Api.echoEndpointV1With h1 t = Except.error 422 ∧
    Api.echoEndpointV2With h2 t = Except.error 422 := by
  rcases hin with h | h <;> subst h <;> exact ⟨rfl, rfl⟩

/-- Witness for claim C2 with the registered handlers and the absent
field. -/
theorem echo_validation_422_witness :
    Api.echoEndpointV1With Api.echo none = Except.error 422 ∧
    Api.echoEndpointV2With Api.echo_v2 none = Except.error 422 :=
  echo_validation_422 Api.echo Api.echo_v2 none (Or.inl rfl)

/-- Claim C3: the health handler returns status UP with no reason and code
200 when the health predicate holds, status DOWN with reason Service is
unhealthy and code 500 when it does not, and for every predicate outcome
the numeric code alone determines the health state: 200 exactly when UP,
500 exactly when DOWN. -/
theorem health_status_contract :
    Api.health true = ({ status := Api.HealthStatus.UP, reason := none }, 200) ∧
    Api.health false =
      ({ status := Api.HealthStatus.DOWN,
         reason := some "Service is unhealthy" }, 500) ∧
    ∀ b : Bool,
      ((Api.health b).2 = 200 ↔ (Api.health b).1.status = Api.HealthStatus.UP) ∧
      ((Api.health b).2 = 500 ↔ (Api.health b).1.status = Api.HealthStatus.DOWN) := by
  decide

/-- Claim C4: every Health value the health handler produces satisfies the
invariant: when the status is DOWN the reason is present and non-empty,
and when the status is UP no reason is carried. -/
theorem health_report_invariant :
    ∀ b : Bool,
      ((Api.health b).1.status = Api.HealthStatus.DOWN →
        (Api.health b).1.reason ≠ none ∧ (Api.health b).1.reason ≠ some "") ∧
      ((Api.health b).1.status = Api.HealthStatus.UP →
        (Api.health b).1.reason = none) := by
  decide

/-- Witness for claim C4 at the unhealthy outcome, discharging the DOWN
hypothesis. -/
theorem health_report_invariant_witness :
    (Api.health false).1.reason ≠ none ∧
    (Api.health false).1.reason ≠ some "" :=
  (health_report_invariant false).1 (by decide)

/-- Claim C5: within each version module, /health and /healthz are routed
to one and the same handler function, so for every health state the two
paths dispatch to identical responses (identical body and status code). -/
theorem health_alias :
    Api.apiV1GetRoute "/health" = Api.apiV1GetRoute "/healthz" ∧
    Api.apiV2GetRoute "/health" = Api.apiV2GetRoute "/healthz" ∧
    Api.apiV1GetRoute "/health" = some Api.GetHandler.health ∧
    Api.apiV2GetRoute "/health" = some Api.GetHandler.health ∧
    ∀ b : Bool,
      Api.dispatchV1 b "/health" = Api.dispatchV1 b "/healthz" ∧
      Api.dispatchV2 b "/health" = Api.dispatchV2 b "/healthz" := by
  exact ⟨rfl, rfl, rfl, rfl, fun b => ⟨rfl, rfl⟩⟩

/-- Claim C6: GET /hello-world dispatches to the same response on the v1
and v2 version modules, namely the greeting body whose message is the
Service Core constant, with status 200, for every health state; the
dispatch never fails. -/
theorem hello_world_same_across_versions :
    ∀ b : Bool,
      Api.dispatchV1 b "/hello-world" = Api.dispatchV2 b "/hello-world" ∧
      Api.dispatchV1 b "/hello-world" =
        some (Api.ApiResponse.greetingBody
          { message := Service.get_hello_world } 200) := by
  exact fun b => ⟨rfl, rfl⟩

/-- Claim C7, at the failing input: serve with host 0.0.0.0, port 9000 and
watch disabled, in a process whose environment does not set UVICORN_HOST
or UVICORN_PORT, binds 0.0.0.0:9000 yet advertises the cached module
metadata built from the defaults, so the catalog external-docs URL is the
default address and not the bind address. The conjuncts also record that
the environment-variable path and the flags-with-watch path do produce
matching URLs, so the divergence is confined to the flags-without-watch
path. -/
theorem serve_advertised_url_divergence :
    (Cli.serve [] "0.0.0.0" 9000 false).bindHost = "0.0.0.0" ∧
    (Cli.serve [] "0.0.0.0" 9000 false).bindPort = 9000 ∧
    (Cli.serve [] "0.0.0.0" 9000 false).advertised.v1DocsUrl =
      "http://127.0.0.1:8000/api/v1/docs" ∧
    (Cli.serve [] "0.0.0.0" 9000 false).advertised.v1DocsUrl ≠
      "http://0.0.0.0:9000/api/v1/docs" ∧
    (Cli.serve [] "0.0.0.0" 9000 true).advertised.v1DocsUrl =
      "http://0.0.0.0:9000/api/v1/docs" ∧
    (Api.moduleInit [("UVICORN_HOST", "10.0.0.5"), ("UVICORN_PORT", "8080")]).v1DocsUrl =
      "http://10.0.0.5:8080/api/v1/docs" := by
  refine ⟨rfl, rfl, rfl, ?_, rfl, rfl⟩
  decide

/-- Claim C8: the CLI echo command with the json option prints the
structured object with single key text and the given value, without it
prints the text itself, and with the text argument omitted the fixed
placeholder sentence is used as the text. -/
theorem cli_echo_contract :
    (∀ t : String,
      Cli.echo t true = ConsoleOutput.jsonObj [("text", t)] ∧
      Cli.echo t false = ConsoleOutput.plain t) ∧
    Cli.echoDefaultText =
      "Lorem ipsum dolor sit amet, consectetur adipiscing elit." ∧
    Cli.echoTextOmitted false = ConsoleOutput.plain Cli.echoDefaultText ∧
    Cli.echoTextOmitted true =
      ConsoleOutput.jsonObj [("text", Cli.echoDefaultText)] := by
  exact ⟨fun t => ⟨rfl, rfl⟩, rfl, rfl, rfl⟩

/-- Claim C9: the api-version input of the openapi command is the closed
two-member enumeration, every member selects its own version module
artifact (V1 the v1 schema, V2 the v2 schema), the selection is a total
function with no error path, and the two selected artifacts are distinct,
so no member is silently mapped to the wrong version. -/
theorem openapi_closed_enum :
    (∀ v : Cli.APIVersion, v = Cli.APIVersion.V1 ∨ v = Cli.APIVersion.V2) ∧
    Cli.openapiSchema Cli.APIVersion.V1 = Api.api_v1_openapi ∧
    Cli.openapiSchema Cli.APIVersion.V2 = Api.api_v2_openapi ∧
    Api.api_v1_openapi ≠ Api.api_v2_openapi := by
  refine ⟨?_, rfl, rfl, by decide⟩
  intro v
  cases v
  · exact Or.inl rfl
  · exact Or.inr rfl

/-- Claim C10: the openapi command with both options omitted prints the v1
module interface description encoded as YAML, and for every selection the
output is the JSON encoding exactly when the JSON output format is
selected. -/
theorem openapi_defaults_yaml_v1 :
    Cli.openapiDefaults = Cli.OpenapiOutput.yamlText Api.api_v1_openapi ∧
    ∀ (v : Cli.APIVersion) (f : Cli.OutputFormat),
      (Cli.openapi v f).isJsonData = true ↔ f = Cli.OutputFormat.JSON := by
  refine ⟨rfl, ?_⟩
  intro v f
  cases v <;> cases f <;> simp [Cli.openapi, Cli.openapiSchema,
    Cli.OpenapiOutput.isJsonData]
